import Mathlib

/-!
Verification development for the Pulsar heart-rate monitor firmware.

This file gives a shallow embedding of the two core components:

* `PulseBpm` — the signal conditioner / beat detector
  (`components/heart_monitor/src/pulse_bpm.cpp`), and
* `HrAnomalyDetector` — the alarm state machine
  (`components/heart_monitor/include/hr_anomaly_detector.h`),

and proves the testable properties stated in the design spec about them.

Modelling conventions:
* C++ `float` arithmetic is modelled as exact rational arithmetic (`ℚ`);
  decimal literals such as `0.26f` become the exact rationals `26/100`.
* C++ `int` / `int64_t` are modelled as `ℤ` (all divisions proved about
  here involve non-negative operands, where C++ truncating division and
  Lean's integer division agree).
* Fixed C arrays indexed by modulo arithmetic are modelled as functions
  `ℕ → _` written through `Function.update`, read at the same indices the
  C++ code computes.
* Reference out-parameters (`int& out_bpm`, `float& out_quality`) are
  modelled by passing the caller's current values into `update` and
  returning the values they hold after the call.
-/

/-- Truncated-toward-zero clamp helper, from `clampf` in pulse_bpm.cpp:
`(v < lo) ? lo : (v > hi) ? hi : v`. -/
def clampf (v lo hi : ℚ) : ℚ :=
  if v < lo then lo else if v > hi then hi else v

/-- Value of `LLONG_MAX` used by the refractory logic when no beat has
been accepted yet. -/
def LLONG_MAX : ℤ := 2 ^ 63 - 1

/-- Insertion of an element into a sorted list, ascending order; building
block of the model of `std::sort` on the ≤5-element scratch array in
`PulseBpm::median_ibi`. -/
def insertAsc (x : ℤ) : List ℤ → List ℤ
  | [] => [x]
  | y :: ys => if x ≤ y then x :: y :: ys else y :: insertAsc x ys

/-- Ascending sort (insertion sort); models `std::sort(tmp, tmp + n)`.
On a multiset of integers any correct sort produces the same list, so
insertion sort is an exact model of `std::sort` here. -/
def sortAsc (l : List ℤ) : List ℤ :=
  l.foldr insertAsc []

/-- Internal state of the beat detector, mirroring the private fields of
class `PulseBpm` (pulse_bpm.h lines 30–57). `ibi_buf` models the
5-element `int ibi_buf_[IBI_BUF]`. -/
structure PulseBpm where
  baseline : ℚ
  lp : ℚ
  env_inited : Bool
  env_min : ℚ
  env_max : ℚ
  last_beat_ms : ℤ
  have_prev : Bool
  prev_filt : ℚ
  prev_t_ms : ℤ
  diff_prev : ℚ
  ibi_buf : ℕ → ℤ
  ibi_count : ℕ
  p2p_ema : ℚ
  noise_ema : ℚ
  last_p2p : ℚ

namespace PulseBpm

/-- Result of one `update` call (pulse_bpm.h lines 7–11). -/
inductive Result : Type where
  | NONE : Result
  | PROVISIONAL : Result
  | STABLE : Result
deriving DecidableEq, Repr

/-- Capacity of the inter-beat-interval ring (`IBI_BUF = 5`). -/
def IBI_BUF : ℕ := 5

/-- Lower physiological IBI bound: `60000 / BPM_MAX = 333` ms. -/
def IBI_MIN_MS : ℤ := 60000 / 180

/-- Upper physiological IBI bound: `60000 / BPM_MIN = 1500` ms. -/
def IBI_MAX_MS : ℤ := 60000 / 40

/-- Model of `PulseBpm::reset(int initial_raw)` (pulse_bpm.cpp 24–46). -/
def reset (initial_raw : ℤ) : PulseBpm where
  baseline := (initial_raw : ℚ)
  lp := 0
  env_inited := false
  env_min := 0
  env_max := 0
  last_beat_ms := 0
  have_prev := false
  prev_filt := 0
  prev_t_ms := 0
  diff_prev := 0
  ibi_buf := fun _ => 0
  ibi_count := 0
  p2p_ema := 0
  noise_ema := 0
  last_p2p := 0

/-- Model of `PulseBpm::update_envelope(float x)` (pulse_bpm.cpp 149–166). -/
def update_envelope (s : PulseBpm) (x : ℚ) : PulseBpm :=
  if s.env_inited = false then
    { s with env_min := x, env_max := x, env_inited := true }
  else
    { s with
      env_min := if x < s.env_min then x else s.env_min + mkRat 1 100 * (x - s.env_min)
      env_max := if x > s.env_max then x else s.env_max + mkRat 1 100 * (x - s.env_max) }

/-- Model of `PulseBpm::push_ibi(int ibi)` (pulse_bpm.cpp 207–211). -/
def push_ibi (s : PulseBpm) (ibi : ℤ) : PulseBpm :=
  { s with
    ibi_buf := Function.update s.ibi_buf (s.ibi_count % IBI_BUF) ibi
    ibi_count := s.ibi_count + 1 }

/-- Model of `PulseBpm::average_ibi()` (pulse_bpm.cpp 213–220): truncating
integer average of the first `min(ibi_count, 5)` ring slots. -/
def average_ibi (s : PulseBpm) : ℤ :=
  let n := min s.ibi_count IBI_BUF
  if n ≤ 0 then 0
  else ((List.range n).map s.ibi_buf).sum / (n : ℤ)

/-- Model of `PulseBpm::median_ibi()` (pulse_bpm.cpp 222–231): sort the
first `min(ibi_count, 5)` ring slots ascending and take index `n / 2`. -/
def median_ibi (s : PulseBpm) : ℤ :=
  let n := min s.ibi_count IBI_BUF
  if n ≤ 0 then 0
  else (sortAsc ((List.range n).map s.ibi_buf)).getD (n / 2) 0

/-- Output record of `register_beat`: the returned `Result`, the state
after the call, and the value `out_bpm` holds after the call. -/
structure RegOut where
  result : Result
  s' : PulseBpm
  out_bpm : ℤ

/-- Model of `PulseBpm::register_beat(int64_t beat_ms, int& out_bpm)`
(pulse_bpm.cpp 168–205). `bpm0` is the value of `out_bpm` at entry; it is
returned unchanged on every path that does not assign `out_bpm`. -/
def register_beat (s : PulseBpm) (beat_ms : ℤ) (bpm0 : ℤ) : RegOut :=
  if s.last_beat_ms ≠ 0 then
    let ibi : ℤ := beat_ms - s.last_beat_ms
    if ibi < IBI_MIN_MS ∨ ibi > IBI_MAX_MS then
      ⟨Result.NONE, { s with last_beat_ms := beat_ms }, bpm0⟩
    else
      -- Consistency gate: reject doubles / erratic triggers
      let med := median_ibi s
      if s.ibi_count ≥ 3 ∧ med > 0 ∧
          ((ibi : ℚ) / (med : ℚ) < mkRat 85 100 ∨ (ibi : ℚ) / (med : ℚ) > mkRat 120 100) then
        ⟨Result.NONE, { s with last_beat_ms := beat_ms }, bpm0⟩
      else
        let s1 := push_ibi s ibi
        let avg := average_ibi s1
        if avg > 0 then
          ⟨(if s1.ibi_count < 3 then Result.PROVISIONAL else Result.STABLE),
           { s1 with last_beat_ms := beat_ms }, 60000 / avg⟩
        else
          ⟨Result.NONE, { s1 with last_beat_ms := beat_ms }, bpm0⟩
  else
    -- First beat arms timing
    ⟨Result.NONE, { s with last_beat_ms := beat_ms }, bpm0⟩

/-- Steps 1–5 of `PulseBpm::update` (pulse_bpm.cpp 50–77): baseline
removal, low-pass, envelope, noise EMA and amplitude EMA updates. The
filtered value of this sample is the `lp` field of the result. -/
def advance (s : PulseBpm) (raw : ℤ) : PulseBpm :=
  let baseline := s.baseline + mkRat 1 100 * ((raw : ℚ) - s.baseline)
  let ac := (raw : ℚ) - baseline
  let lp := s.lp + mkRat 18 100 * (ac - s.lp)
  let s1 := update_envelope { s with baseline := baseline, lp := lp } lp
  let p2p := s1.env_max - s1.env_min
  let noise :=
    if s1.have_prev then s1.noise_ema + mkRat 6 100 * (|lp - s1.prev_filt| - s1.noise_ema)
    else s1.noise_ema
  let p2p_ema := if s1.p2p_ema ≤ 0 then p2p else s1.p2p_ema + mkRat 4 100 * (p2p - s1.p2p_ema)
  { s1 with last_p2p := p2p, noise_ema := noise, p2p_ema := p2p_ema }

/-- Step 8 of `PulseBpm::update` (pulse_bpm.cpp 94–101): the quality
score written to `out_quality` on every call. -/
def qualityOf (s : PulseBpm) (raw : ℤ) : ℚ :=
  let s4 := advance s raw
  let q_amp := clampf (s4.p2p_ema * mkRat 1 140) 0 1
  let q_noise := clampf (1 - s4.noise_ema * mkRat 1 25) 0 1
  let q_stb := clampf (((min s.ibi_count 5 : ℕ) : ℚ) * mkRat 1 5) 0 1
  clampf (mkRat 55 100 * q_amp + mkRat 30 100 * q_noise + mkRat 15 100 * q_stb) 0 1

/-- Output record of `update`: the returned `Result`, the state after the
call, the values that `out_bpm` and `out_quality` hold after the call,
and the local `bool beat` flag of pulse_bpm.cpp line 133 (true exactly
when `register_beat` was invoked on this call). -/
structure UpdOut where
  result : Result
  s' : PulseBpm
  out_bpm : ℤ
  out_quality : ℚ
  beat : Bool

/-- Model of
`PulseBpm::update(int raw, int64_t t_ms, int& out_bpm, float& out_quality)`
(pulse_bpm.cpp 48–147). `bpm0` and `q0` are the values held by the
caller's `out_bpm` / `out_quality` at entry. -/
def update (s : PulseBpm) (raw : ℤ) (t_ms : ℤ) (bpm0 : ℤ) (q0 : ℚ) : UpdOut :=
  let s4 := advance s raw
  let filt := s4.lp
  let p2p_min_adapt := clampf (max 18 (8 * s4.noise_ema)) 18 80
  let thr := max 22 (max (mkRat 26 100 * s4.p2p_ema) (6 * s4.noise_ema))
  let out_q := qualityOf s raw
  -- Gate if envelope not ready or amplitude too low
  if s4.env_inited = false ∨ s4.p2p_ema < p2p_min_adapt then
    ⟨Result.NONE, { s4 with have_prev := false }, bpm0, out_q, false⟩
  -- Need previous sample for slope logic
  else if s4.have_prev = false then
    ⟨Result.NONE,
     { s4 with prev_filt := filt, prev_t_ms := t_ms, have_prev := true, diff_prev := 0 },
     bpm0, out_q, false⟩
  else
    let diff := filt - s4.prev_filt
    let since_last := if s4.last_beat_ms = 0 then LLONG_MAX else s4.prev_t_ms - s4.last_beat_ms
    let beat : Bool :=
      decide (since_last ≥ IBI_MIN_MS) && decide (s4.diff_prev > 0) && decide (diff ≤ 0) &&
      decide (s4.prev_filt > thr) && decide (s4.prev_filt - s4.env_min > mkRat 50 100 * s4.p2p_ema)
    let s5 := { s4 with diff_prev := diff, prev_filt := filt, prev_t_ms := t_ms }
    if beat then
      let rb := register_beat s5 s5.prev_t_ms bpm0
      ⟨rb.result, rb.s', rb.out_bpm, out_q, true⟩
    else
      ⟨Result.NONE, s5, bpm0, out_q, false⟩

/-- State invariant of the IBI ring (spec §3, Detector internal state):
every interval stored in an occupied ring slot lies in `[333, 1500]` ms. -/
def Inv (s : PulseBpm) : Prop :=
  ∀ i < min s.ibi_count IBI_BUF, IBI_MIN_MS ≤ s.ibi_buf i ∧ s.ibi_buf i ≤ IBI_MAX_MS

instance (s : PulseBpm) : Decidable (Inv s) :=
  decidable_of_iff
    (∀ i ∈ List.range (min s.ibi_count IBI_BUF),
      IBI_MIN_MS ≤ s.ibi_buf i ∧ s.ibi_buf i ≤ IBI_MAX_MS)
    (by simp [Inv])

/-- Gate of pulse_bpm.cpp lines 118–121: the slope changed sign from
positive to non-positive at the previous sample
(`diff_prev_ > 0` and `diff = filt - prev_filt_ ≤ 0`). -/
def slopeGate (s : PulseBpm) (raw : ℤ) : Prop :=
  s.diff_prev > 0 ∧ (advance s raw).lp - s.prev_filt ≤ 0

/-- Gate of pulse_bpm.cpp lines 123–125: at least 333 ms since the last
accepted beat (measured at the previous sample time), or no beat yet. -/
def refractoryGate (s : PulseBpm) : Prop :=
  (if s.last_beat_ms = 0 then LLONG_MAX else s.prev_t_ms - s.last_beat_ms) ≥ IBI_MIN_MS

/-- Gate of pulse_bpm.cpp lines 85–92 and 136: the previous filtered
value exceeds the adaptive threshold
`max(22, 0.26 × smoothed amplitude, 6 × noise)`. -/
def thresholdGate (s : PulseBpm) (raw : ℤ) : Prop :=
  s.prev_filt > max 22 (max (mkRat 26 100 * (advance s raw).p2p_ema) (6 * (advance s raw).noise_ema))

/-- Gate of pulse_bpm.cpp lines 127–131: the prominence
(previous filtered value minus envelope minimum) exceeds
`0.50 × smoothed amplitude`. -/
def prominenceGate (s : PulseBpm) (raw : ℤ) : Prop :=
  s.prev_filt - (advance s raw).env_min > mkRat 50 100 * (advance s raw).p2p_ema

/-- Definition following the SPEC's words (testable property §8 line 96),
for the refinement comparison in claim C1:
"`bpm == round(60000 / average(last ≤5 accepted IBIs))`", with the exact
rational mean of the stored intervals, rounded to the nearest integer.
The code (pulse_bpm.cpp 192–194, 213–220) instead uses truncating
integer division twice. -/
def specBpmOf (s : PulseBpm) : ℤ :=
  round ((60000 : ℚ) /
    ((((List.range (min s.ibi_count IBI_BUF)).map fun i => ((s.ibi_buf i : ℤ) : ℚ)).sum) /
      ((min s.ibi_count IBI_BUF : ℕ) : ℚ)))

/-- One driver step feeding a raw sample and timestamp to `update`,
discarding the out-parameters (as the sampler task does between beats). -/
def driveStep (st : PulseBpm) (p : ℤ × ℤ) : PulseBpm :=
  (update st p.1 p.2 0 0).s'

/-- Concrete five-sample prelude: after `reset 2000`, feed the listed
`(raw, t_ms)` samples. The fourth sample arms a first beat at t = 1000. -/
def cexStateFive : PulseBpm :=
  [((2000 : ℤ), (0 : ℤ)), (3000, 100), (3000, 200), (1000, 1000), (6000, 1400)].foldl
    driveStep (reset 2000)

/-- The sixth call on the concrete run: accepts a beat at t = 1900 with
a single stored IBI of 900 ms, so the code reports `60000 / 900 = 66`. -/
def cexUpdSix : UpdOut :=
  update cexStateFive 1000 1900 0 0

/-- Handcrafted reachable-shaped detector state used as a concrete input
for witnesses: `update` on it detects a candidate beat whose IBI
(2000 ms) is out of range, so the beat is rejected. -/
def wBeatState : PulseBpm where
  baseline := 0
  lp := 300
  env_inited := true
  env_min := 0
  env_max := 400
  last_beat_ms := 1000
  have_prev := true
  prev_filt := 300
  prev_t_ms := 2900
  diff_prev := 50
  ibi_buf := fun i => if i < 3 then 900 else 0
  ibi_count := 3
  p2p_ema := 100
  noise_ema := 0
  last_p2p := 400

/-- Concrete envelope state for the C7 witness. -/
def wEnvState : PulseBpm :=
  { reset 0 with env_inited := true, env_min := 0, env_max := 10 }

end PulseBpm

/-- Alarm classification (heart_monitor_types.h lines 5–12). -/
inductive AlarmType : Type where
  | NONE : AlarmType
  | NO_SIGNAL : AlarmType
  | BRADYCARDIA : AlarmType
  | TACHYCARDIA : AlarmType
  | RAPID_CHANGE : AlarmType
deriving DecidableEq, Repr

/-- Periodic BPM reading consumed by the anomaly detector
(heart_monitor_types.h lines 26–32). -/
structure BpmReading where
  bpm : ℤ
  quality : ℚ
  stable : Bool
  t_ms : ℤ
deriving DecidableEq, Repr

/-- Edge-triggered alarm event snapshot (heart_monitor_types.h 34–40). -/
structure AlarmEvent where
  type : AlarmType
  bpm : ℤ
  quality : ℚ
  t_ms : ℤ
deriving DecidableEq, Repr

/-- Mutable state of class `HrAnomalyDetector`
(hr_anomaly_detector.h lines 151–168). The configuration is passed
explicitly to each operation instead of being stored in the object.
`hist` models the 8-element `Hist hist_[HIST_N]` ring. -/
structure HrAnomalyDetector where
  active_alarm : AlarmType
  last_t_ms : ℤ
  no_signal_since : ℤ
  abnormal_since : ℤ
  abnormal_kind : AlarmType
  clear_since : ℤ
  hist : ℕ → ℤ × ℤ
  hist_wr : ℕ
  hist_count : ℕ

namespace HrAnomalyDetector

/-- Detector thresholds (hr_anomaly_detector.h lines 10–27). -/
structure Config where
  brady_bpm : ℤ
  tachy_bpm : ℤ
  sustain_ms : ℤ
  min_quality_for_bpm : ℚ
  no_signal_ms : ℤ
  rapid_change_delta_bpm : ℤ
  rapid_change_window_ms : ℤ
  clear_ms : ℤ

/-- Default member values of `Config`. -/
def default_config : Config where
  brady_bpm := 45
  tachy_bpm := 130
  sustain_ms := 5000
  min_quality_for_bpm := mkRat 1 4
  no_signal_ms := 3000
  rapid_change_delta_bpm := 35
  rapid_change_window_ms := 5000
  clear_ms := 3000

/-- History ring capacity (`HIST_N = 8`). -/
def HIST_N : ℕ := 8

/-- Member-initializer state of a freshly constructed detector. -/
def init : HrAnomalyDetector where
  active_alarm := AlarmType.NONE
  last_t_ms := 0
  no_signal_since := 0
  abnormal_since := 0
  abnormal_kind := AlarmType.NONE
  clear_since := 0
  hist := fun _ => (0, 0)
  hist_wr := 0
  hist_count := 0

/-- Model of `push_hist` (hr_anomaly_detector.h lines 123–128). -/
def push_hist (s : HrAnomalyDetector) (r : BpmReading) : HrAnomalyDetector :=
  { s with
    hist := Function.update s.hist s.hist_wr (r.bpm, r.t_ms)
    hist_wr := (s.hist_wr + 1) % HIST_N
    hist_count := if s.hist_count < HIST_N then s.hist_count + 1 else s.hist_count }

/-- The loop body of `detect_rapid_change` (hr_anomaly_detector.h
lines 137–147), over the list of ring entries visited for
`i = 1 .. hist_count-1`: entries with `dt ≤ 0` are skipped, the first
entry with `dt > window` stops the scan, and an entry with
`|Δbpm| ≥ delta` reports a rapid change. -/
def rapidScan (cfg : Config) (newest : ℤ × ℤ) : List (ℤ × ℤ) → Bool
  | [] => false
  | old :: rest =>
    if newest.2 - old.2 ≤ 0 then rapidScan cfg newest rest
    else if newest.2 - old.2 > cfg.rapid_change_window_ms then false
    else if cfg.rapid_change_delta_bpm ≤ |newest.1 - old.1| then true
    else rapidScan cfg newest rest

/-- The ring entries visited by the `detect_rapid_change` loop, newest
to oldest: index `(hist_wr + HIST_N - 1 - i) % HIST_N` for
`i = 1 .. hist_count - 1`. -/
def olderEntries (s : HrAnomalyDetector) : List (ℤ × ℤ) :=
  (List.range (s.hist_count - 1)).map
    fun j => s.hist ((s.hist_wr + HIST_N - 1 - (j + 1)) % HIST_N)

/-- Model of `detect_rapid_change` (hr_anomaly_detector.h 130–149). -/
def detect_rapid_change (cfg : Config) (s : HrAnomalyDetector) : Bool :=
  if s.hist_count < 2 then false
  else rapidScan cfg (s.hist ((s.hist_wr + HIST_N - 1) % HIST_N)) (olderEntries s)

/-- No-signal tracking of `update` (hr_anomaly_detector.h lines 37–42):
the new value of `no_signal_since_ms_`. -/
def trackNoSignal (cfg : Config) (s : HrAnomalyDetector) (r : BpmReading) : ℤ :=
  if r.quality < cfg.min_quality_for_bpm ∨ r.bpm ≤ 0 then
    (if s.no_signal_since = 0 then r.t_ms else s.no_signal_since)
  else 0

/-- Candidate produced by one classification pass together with the new
abnormal-onset tracking fields. -/
structure CandOut where
  cand : AlarmType
  abnormal_since : ℤ
  abnormal_kind : AlarmType
deriving DecidableEq, Repr

/-- Sustained bradycardia/tachycardia classification of `update`
(hr_anomaly_detector.h lines 56–76), entered only for usable readings. -/
def sustainedStep (cfg : Config) (s : HrAnomalyDetector) (r : BpmReading) : CandOut :=
  if r.bpm > 0 ∧ r.bpm < cfg.brady_bpm then
    let since :=
      if s.abnormal_since = 0 ∨ s.abnormal_kind ≠ AlarmType.BRADYCARDIA then r.t_ms
      else s.abnormal_since
    { cand := if r.t_ms - since ≥ cfg.sustain_ms then AlarmType.BRADYCARDIA else AlarmType.NONE
      abnormal_since := since
      abnormal_kind := AlarmType.BRADYCARDIA }
  else if r.bpm > cfg.tachy_bpm then
    let since :=
      if s.abnormal_since = 0 ∨ s.abnormal_kind ≠ AlarmType.TACHYCARDIA then r.t_ms
      else s.abnormal_since
    { cand := if r.t_ms - since ≥ cfg.sustain_ms then AlarmType.TACHYCARDIA else AlarmType.NONE
      abnormal_since := since
      abnormal_kind := AlarmType.TACHYCARDIA }
  else
    { cand := AlarmType.NONE, abnormal_since := 0, abnormal_kind := AlarmType.NONE }

/-- Candidate computation of `update` before clear hysteresis
(hr_anomaly_detector.h lines 46–88), evaluated on the state `s1` that
already holds the updated `no_signal_since` and the pushed history. -/
def computeCandidate (cfg : Config) (s1 : HrAnomalyDetector) (r : BpmReading) : CandOut :=
  if s1.no_signal_since ≠ 0 ∧ r.t_ms - s1.no_signal_since ≥ cfg.no_signal_ms then
    { cand := AlarmType.NO_SIGNAL
      abnormal_since := s1.abnormal_since
      abnormal_kind := s1.abnormal_kind }
  else if r.quality ≥ cfg.min_quality_for_bpm ∧ r.stable then
    let so := sustainedStep cfg s1 r
    if so.cand = AlarmType.NONE then
      { so with
        cand := if detect_rapid_change cfg s1 then AlarmType.RAPID_CHANGE else AlarmType.NONE }
    else so
  else
    { cand := AlarmType.NONE, abnormal_since := 0, abnormal_kind := AlarmType.NONE }

/-- The detector state right after the no-signal tracking and the
history push of one `update` tick (hr_anomaly_detector.h lines 35–44). -/
def pushedState (cfg : Config) (s : HrAnomalyDetector) (r : BpmReading) : HrAnomalyDetector :=
  push_hist { s with last_t_ms := r.t_ms, no_signal_since := trackNoSignal cfg s r } r

/-- The per-tick candidate before clear hysteresis (value held by the
local `candidate` variable at hr_anomaly_detector.h line 88). -/
def preCandidate (cfg : Config) (s : HrAnomalyDetector) (r : BpmReading) : AlarmType :=
  (computeCandidate cfg (pushedState cfg s r) r).cand

/-- The per-tick candidate after clear hysteresis (value held by the
local `candidate` variable at hr_anomaly_detector.h line 103, just
before the state-transition comparison). -/
def candidateAfterHysteresis (cfg : Config) (s : HrAnomalyDetector) (r : BpmReading) :
    AlarmType :=
  if s.active_alarm ≠ AlarmType.NONE ∧ preCandidate cfg s r = AlarmType.NONE then
    if r.t_ms - (if s.clear_since = 0 then r.t_ms else s.clear_since) < cfg.clear_ms then
      s.active_alarm
    else AlarmType.NONE
  else preCandidate cfg s r

/-- Output of one `update` tick: the new detector state and the emitted
event, if any (the C++ returns `true` and fills `out_event` exactly when
the model returns `some`). -/
structure HUpd where
  s' : HrAnomalyDetector
  event : Option AlarmEvent

/-- Model of `HrAnomalyDetector::update` (hr_anomaly_detector.h 33–113).
The value the local `candidate` holds at line 103 is factored out as
`candidateAfterHysteresis`; `cls` is the new value of `clear_since_ms_`
written by the hysteresis block (lines 90–100). -/
def update (cfg : Config) (s : HrAnomalyDetector) (r : BpmReading) : HUpd :=
  let s1 := pushedState cfg s r
  let co := computeCandidate cfg s1 r
  let s2 := { s1 with abnormal_since := co.abnormal_since, abnormal_kind := co.abnormal_kind }
  -- Hysteresis: require stable normal for clear_ms before clearing
  let cand2 := candidateAfterHysteresis cfg s r
  let cls :=
    if s2.active_alarm ≠ AlarmType.NONE ∧ co.cand = AlarmType.NONE then
      (if r.t_ms - (if s2.clear_since = 0 then r.t_ms else s2.clear_since) < cfg.clear_ms then
        (if s2.clear_since = 0 then r.t_ms else s2.clear_since)
      else 0)
    else 0
  let s3 := { s2 with clear_since := cls }
  -- State transition?
  if cand2 ≠ s3.active_alarm then
    ⟨{ s3 with active_alarm := cand2 }, some ⟨cand2, r.bpm, r.quality, r.t_ms⟩⟩
  else ⟨s3, none⟩

/-- Definition following the SPEC's words for claim C8: scan the history
ring from the newest entry backward, stopping at the first entry outside
the window; report a rapid change if any strictly older scanned entry
within the window differs from the newest by at least the delta. -/
def specRapidScan (cfg : Config) (s : HrAnomalyDetector) : Bool :=
  let newest := s.hist ((s.hist_wr + HIST_N - 1) % HIST_N)
  ((olderEntries s).takeWhile fun old =>
      decide (newest.2 - old.2 ≤ cfg.rapid_change_window_ms)).any fun old =>
    decide (0 < newest.2 - old.2) && decide (cfg.rapid_change_delta_bpm ≤ |newest.1 - old.1|)

/-- Scenario E, first reading: usable bpm = 70 at t = 0. -/
def sE_r1 : BpmReading := ⟨70, 1, true, 0⟩

/-- Scenario E, second reading: usable bpm = 110 at t = 2000. -/
def sE_r2 : BpmReading := ⟨110, 1, true, 2000⟩

/-- Detector state after feeding `sE_r1` to a fresh detector. -/
def sE_state1 : HrAnomalyDetector := (update default_config init sE_r1).s'

/-- Concrete state for the C3 witness: a tachycardia alarm is active and
normal readings have been pending since t = 1000. -/
def wClearState : HrAnomalyDetector :=
  { init with active_alarm := AlarmType.TACHYCARDIA, clear_since := 1000 }

/-- Normal usable reading at t = 2000 for the C3 witness. -/
def wClearReading : BpmReading := ⟨75, 1, true, 2000⟩

/-- Concrete state for the C4 witness: low-quality input pending since
t = 100. -/
def wNoSigState : HrAnomalyDetector := { init with no_signal_since := 100 }

/-- Low-quality, would-be tachycardic reading at t = 3100 for the C4
witness. -/
def wNoSigReading : BpmReading := ⟨150, mkRat 1 10, true, 3100⟩

end HrAnomalyDetector

namespace PulseBpm

@[simp] lemma update_envelope_ibi_buf (s : PulseBpm) (x : ℚ) :
    (update_envelope s x).ibi_buf = s.ibi_buf := by
  unfold update_envelope; split <;> rfl

@[simp] lemma update_envelope_ibi_count (s : PulseBpm) (x : ℚ) :
    (update_envelope s x).ibi_count = s.ibi_count := by
  unfold update_envelope; split <;> rfl

@[simp] lemma update_envelope_last_beat_ms (s : PulseBpm) (x : ℚ) :
    (update_envelope s x).last_beat_ms = s.last_beat_ms := by
  unfold update_envelope; split <;> rfl

@[simp] lemma update_envelope_have_prev (s : PulseBpm) (x : ℚ) :
    (update_envelope s x).have_prev = s.have_prev := by
  unfold update_envelope; split <;> rfl

@[simp] lemma update_envelope_prev_filt (s : PulseBpm) (x : ℚ) :
    (update_envelope s x).prev_filt = s.prev_filt := by
  unfold update_envelope; split <;> rfl

@[simp] lemma update_envelope_prev_t_ms (s : PulseBpm) (x : ℚ) :
    (update_envelope s x).prev_t_ms = s.prev_t_ms := by
  unfold update_envelope; split <;> rfl

@[simp] lemma update_envelope_diff_prev (s : PulseBpm) (x : ℚ) :
    (update_envelope s x).diff_prev = s.diff_prev := by
  unfold update_envelope; split <;> rfl

@[simp] lemma update_envelope_noise_ema (s : PulseBpm) (x : ℚ) :
    (update_envelope s x).noise_ema = s.noise_ema := by
  unfold update_envelope; split <;> rfl

@[simp] lemma update_envelope_p2p_ema (s : PulseBpm) (x : ℚ) :
    (update_envelope s x).p2p_ema = s.p2p_ema := by
  unfold update_envelope; split <;> rfl

@[simp] lemma advance_ibi_buf (s : PulseBpm) (raw : ℤ) :
    (advance s raw).ibi_buf = s.ibi_buf := by
  unfold advance; simp

@[simp] lemma advance_ibi_count (s : PulseBpm) (raw : ℤ) :
    (advance s raw).ibi_count = s.ibi_count := by
  unfold advance; simp

@[simp] lemma advance_last_beat_ms (s : PulseBpm) (raw : ℤ) :
    (advance s raw).last_beat_ms = s.last_beat_ms := by
  unfold advance; simp

@[simp] lemma advance_have_prev (s : PulseBpm) (raw : ℤ) :
    (advance s raw).have_prev = s.have_prev := by
  unfold advance; simp

@[simp] lemma advance_prev_filt (s : PulseBpm) (raw : ℤ) :
    (advance s raw).prev_filt = s.prev_filt := by
  unfold advance; simp

@[simp] lemma advance_prev_t_ms (s : PulseBpm) (raw : ℤ) :
    (advance s raw).prev_t_ms = s.prev_t_ms := by
  unfold advance; simp

@[simp] lemma advance_diff_prev (s : PulseBpm) (raw : ℤ) :
    (advance s raw).diff_prev = s.diff_prev := by
  unfold advance; simp

/-- `average_ibi` only reads the IBI ring fields. -/
lemma average_ibi_congr {s1 s2 : PulseBpm}
    (hb : s1.ibi_buf = s2.ibi_buf) (hc : s1.ibi_count = s2.ibi_count) :
    average_ibi s1 = average_ibi s2 := by
  unfold average_ibi; rw [hb, hc]

/-- `median_ibi` only reads the IBI ring fields. -/
lemma median_ibi_congr {s1 s2 : PulseBpm}
    (hb : s1.ibi_buf = s2.ibi_buf) (hc : s1.ibi_count = s2.ibi_count) :
    median_ibi s1 = median_ibi s2 := by
  unfold median_ibi; rw [hb, hc]

lemma mem_insertAsc (x y : ℤ) (l : List ℤ) :
    y ∈ insertAsc x l ↔ y = x ∨ y ∈ l := by
  induction l with
  | nil => simp [insertAsc]
  | cons a as ih =>
    unfold insertAsc
    split
    · simp [or_comm, or_assoc, or_left_comm]
    · simp [ih]; tauto

lemma mem_sortAsc (y : ℤ) (l : List ℤ) : y ∈ sortAsc l ↔ y ∈ l := by
  induction l with
  | nil => simp [sortAsc]
  | cons a as ih =>
    unfold sortAsc at ih ⊢
    simp [mem_insertAsc, ih]

lemma length_insertAsc (x : ℤ) (l : List ℤ) :
    (insertAsc x l).length = l.length + 1 := by
  induction l with
  | nil => rfl
  | cons a as ih =>
    unfold insertAsc
    split
    · simp
    · simp [ih]

lemma length_sortAsc (l : List ℤ) : (sortAsc l).length = l.length := by
  induction l with
  | nil => rfl
  | cons a as ih =>
    unfold sortAsc at ih ⊢
    simp [length_insertAsc, ih]

/-- With at least 3 accepted intervals on record and the ring invariant,
the median interval is positive (so the consistency gate's `med > 0`
guard in `register_beat` always passes on reachable states). -/
lemma median_ibi_pos {s : PulseBpm} (hInv : Inv s) (h3 : 3 ≤ s.ibi_count) :
    0 < median_ibi s := by
  have hn : 3 ≤ min s.ibi_count IBI_BUF := le_min h3 (by decide)
  simp only [median_ibi]
  split
  case isTrue h => omega
  case isFalse h =>
    set n := min s.ibi_count IBI_BUF with hndef
    set l := (List.range n).map s.ibi_buf with hldef
    have hlen : (sortAsc l).length = n := by
      rw [length_sortAsc, hldef, List.length_map, List.length_range]
    have hidx : n / 2 < (sortAsc l).length := by
      rw [hlen]; omega
    have hmem : (sortAsc l).getD (n / 2) 0 ∈ sortAsc l := by
      rw [List.getD_eq_getElem?_getD, List.getElem?_eq_getElem hidx]
      exact List.getElem_mem _
    have hmem' : (sortAsc l).getD (n / 2) 0 ∈ l := (mem_sortAsc _ _).mp hmem
    rw [hldef] at hmem'
    rcases List.mem_map.mp hmem' with ⟨i, hi, hval⟩
    rcases hInv i (by simpa [hndef] using List.mem_range.mp hi) with ⟨hlo, _⟩
    have hpos : (0 : ℤ) < IBI_MIN_MS := by decide
    exact lt_of_lt_of_le hpos (hval ▸ hlo)

/-- `IBI_MIN_MS` evaluates to 333 ms and `IBI_MAX_MS` to 1500 ms. -/
lemma ibi_bounds_eq : IBI_MIN_MS = 333 ∧ IBI_MAX_MS = 1500 := by decide

/-- Pushing an in-range interval preserves the ring invariant. -/
lemma Inv_push_ibi {s : PulseBpm} {ibi : ℤ} (hInv : Inv s)
    (hlo : IBI_MIN_MS ≤ ibi) (hhi : ibi ≤ IBI_MAX_MS) :
    Inv (push_ibi s ibi) := by
  intro i hi
  simp only [push_ibi] at hi ⊢
  by_cases hidx : i = s.ibi_count % IBI_BUF
  · subst hidx
    simp only [Function.update_same]
    exact ⟨hlo, hhi⟩
  · rw [Function.update_noteq hidx]
    apply hInv
    have h5 : IBI_BUF = 5 := rfl
    rw [h5] at hi hidx ⊢
    omega

/-- Behaviour of `register_beat` on the accepting path: the reported BPM
is `60000` divided (truncating integer division) by the truncated integer
average of the updated ring, and the updated ring still satisfies the
interval invariant. -/
lemma register_beat_accept {s : PulseBpm} {bm bpm0 : ℤ} (hInv : Inv s)
    (h : (register_beat s bm bpm0).result ≠ Result.NONE) :
    (register_beat s bm bpm0).out_bpm = 60000 / average_ibi (register_beat s bm bpm0).s' ∧
    Inv (register_beat s bm bpm0).s' := by
  simp only [register_beat] at h ⊢
  by_cases h1 : s.last_beat_ms ≠ 0
  · rw [if_pos h1] at h ⊢
    by_cases h2 : bm - s.last_beat_ms < IBI_MIN_MS ∨ bm - s.last_beat_ms > IBI_MAX_MS
    · rw [if_pos h2] at h; simp at h
    · rw [if_neg h2] at h ⊢
      by_cases h3 : s.ibi_count ≥ 3 ∧ median_ibi s > 0 ∧
          (((bm - s.last_beat_ms : ℤ) : ℚ) / (median_ibi s : ℚ) < mkRat 85 100 ∨
           ((bm - s.last_beat_ms : ℤ) : ℚ) / (median_ibi s : ℚ) > mkRat 120 100)
      · rw [if_pos h3] at h; simp at h
      · rw [if_neg h3] at h ⊢
        by_cases h4 : average_ibi (push_ibi s (bm - s.last_beat_ms)) > 0
        · rw [if_pos h4] at h ⊢
          push_neg at h2
          refine ⟨?_, ?_⟩
          · dsimp only
            exact congrArg (fun z => (60000 : ℤ) / z) (average_ibi_congr rfl rfl)
          · intro i hi
            exact Inv_push_ibi hInv h2.1 h2.2 i hi
        · rw [if_neg h4] at h; simp at h
  · rw [if_neg h1] at h; simp at h

/-- On every path of `register_beat` that returns `NONE`, the caller's
`out_bpm` value is returned unchanged. -/
lemma register_beat_none_bpm (s : PulseBpm) (bm bpm0 : ℤ)
    (h : (register_beat s bm bpm0).result = Result.NONE) :
    (register_beat s bm bpm0).out_bpm = bpm0 := by
  simp only [register_beat] at h ⊢
  by_cases h1 : s.last_beat_ms ≠ 0
  · rw [if_pos h1] at h ⊢
    by_cases h2 : bm - s.last_beat_ms < IBI_MIN_MS ∨ bm - s.last_beat_ms > IBI_MAX_MS
    · rw [if_pos h2]
    · rw [if_neg h2] at h ⊢
      by_cases h3 : s.ibi_count ≥ 3 ∧ median_ibi s > 0 ∧
          (((bm - s.last_beat_ms : ℤ) : ℚ) / (median_ibi s : ℚ) < mkRat 85 100 ∨
           ((bm - s.last_beat_ms : ℤ) : ℚ) / (median_ibi s : ℚ) > mkRat 120 100)
      · rw [if_pos h3]
      · rw [if_neg h3] at h ⊢
        by_cases h4 : average_ibi (push_ibi s (bm - s.last_beat_ms)) > 0
        · rw [if_pos h4] at h
          dsimp only at h
          split at h <;> simp_all
        · rw [if_neg h4]
  · rw [if_neg h1]

/-- The ring invariant only depends on the IBI ring fields. -/
lemma Inv_of_fields {s1 s2 : PulseBpm}
    (hb : s1.ibi_buf = s2.ibi_buf) (hc : s1.ibi_count = s2.ibi_count)
    (h : Inv s2) : Inv s1 := by
  intro i hi
  rw [hb]
  rw [hc] at hi
  exact h i hi

/-- Behaviour of `register_beat` when the candidate interval is out of
range or inconsistent with the median: the beat is dropped, the IBI ring
is untouched, and only the last-beat timestamp advances. -/
lemma register_beat_reject {s : PulseBpm} {bm bpm0 : ℤ} (hInv : Inv s)
    (hlast : s.last_beat_ms ≠ 0)
    (hrej : bm - s.last_beat_ms < IBI_MIN_MS ∨ bm - s.last_beat_ms > IBI_MAX_MS ∨
      (3 ≤ s.ibi_count ∧
        (((bm - s.last_beat_ms : ℤ) : ℚ) / (median_ibi s : ℚ) < mkRat 85 100 ∨
         ((bm - s.last_beat_ms : ℤ) : ℚ) / (median_ibi s : ℚ) > mkRat 120 100))) :
    (register_beat s bm bpm0).result = Result.NONE ∧
    (register_beat s bm bpm0).s'.ibi_buf = s.ibi_buf ∧
    (register_beat s bm bpm0).s'.ibi_count = s.ibi_count ∧
    (register_beat s bm bpm0).s'.last_beat_ms = bm := by
  simp only [register_beat]
  rw [if_pos hlast]
  by_cases h2 : bm - s.last_beat_ms < IBI_MIN_MS ∨ bm - s.last_beat_ms > IBI_MAX_MS
  · rw [if_pos h2]
    exact ⟨rfl, rfl, rfl, rfl⟩
  · rw [if_neg h2]
    push_neg at h2
    have h3 : 3 ≤ s.ibi_count ∧
        (((bm - s.last_beat_ms : ℤ) : ℚ) / (median_ibi s : ℚ) < mkRat 85 100 ∨
         ((bm - s.last_beat_ms : ℤ) : ℚ) / (median_ibi s : ℚ) > mkRat 120 100) := by
      rcases hrej with h | h | h
      · omega
      · omega
      · exact h
    have hmed : 0 < median_ibi s := median_ibi_pos hInv h3.1
    rw [if_pos ⟨h3.1, hmed, h3.2⟩]
    exact ⟨rfl, rfl, rfl, rfl⟩

/-- Whenever `update` returns `Provisional` or `Stable`, the candidate
beat flag was set on that call. -/
lemma update_result_ne_none_beat (s : PulseBpm) (raw t bpm0 : ℤ) (q0 : ℚ)
    (h : (update s raw t bpm0 q0).result ≠ Result.NONE) :
    (update s raw t bpm0 q0).beat = true := by
  simp only [update] at h ⊢
  by_cases g1 : (advance s raw).env_inited = false ∨
      (advance s raw).p2p_ema < clampf (max 18 (8 * (advance s raw).noise_ema)) 18 80
  · rw [if_pos g1] at h; simp at h
  · rw [if_neg g1] at h ⊢
    by_cases g2 : (advance s raw).have_prev = false
    · rw [if_pos g2] at h; simp at h
    · rw [if_neg g2] at h ⊢
      by_cases g3 :
          (decide ((if (advance s raw).last_beat_ms = 0 then LLONG_MAX
              else (advance s raw).prev_t_ms - (advance s raw).last_beat_ms) ≥ IBI_MIN_MS) &&
            decide ((advance s raw).diff_prev > 0) &&
            decide ((advance s raw).lp - (advance s raw).prev_filt ≤ 0) &&
            decide ((advance s raw).prev_filt >
              max 22 (max (mkRat 26 100 * (advance s raw).p2p_ema)
                (6 * (advance s raw).noise_ema))) &&
            decide ((advance s raw).prev_filt - (advance s raw).env_min >
              mkRat 50 100 * (advance s raw).p2p_ema)) = true
      · rw [if_pos g3]
      · rw [if_neg g3] at h; simp at h

/-- When the beat flag is set, `update` hands over to `register_beat` on
a state whose IBI ring and last-beat timestamp agree with the entry
state, with the beat stamped at the current call time. -/
lemma update_beat_eq (s : PulseBpm) (raw t bpm0 : ℤ) (q0 : ℚ)
    (hb : (update s raw t bpm0 q0).beat = true) :
    ∃ s5 : PulseBpm, s5.ibi_buf = s.ibi_buf ∧ s5.ibi_count = s.ibi_count ∧
      s5.last_beat_ms = s.last_beat_ms ∧
      (update s raw t bpm0 q0).result = (register_beat s5 t bpm0).result ∧
      (update s raw t bpm0 q0).s' = (register_beat s5 t bpm0).s' ∧
      (update s raw t bpm0 q0).out_bpm = (register_beat s5 t bpm0).out_bpm := by
  simp only [update] at hb ⊢
  by_cases g1 : (advance s raw).env_inited = false ∨
      (advance s raw).p2p_ema < clampf (max 18 (8 * (advance s raw).noise_ema)) 18 80
  · rw [if_pos g1] at hb; simp at hb
  · rw [if_neg g1] at hb ⊢
    by_cases g2 : (advance s raw).have_prev = false
    · rw [if_pos g2] at hb; simp at hb
    · rw [if_neg g2] at hb ⊢
      by_cases g3 :
          (decide ((if (advance s raw).last_beat_ms = 0 then LLONG_MAX
              else (advance s raw).prev_t_ms - (advance s raw).last_beat_ms) ≥ IBI_MIN_MS) &&
            decide ((advance s raw).diff_prev > 0) &&
            decide ((advance s raw).lp - (advance s raw).prev_filt ≤ 0) &&
            decide ((advance s raw).prev_filt >
              max 22 (max (mkRat 26 100 * (advance s raw).p2p_ema)
                (6 * (advance s raw).noise_ema))) &&
            decide ((advance s raw).prev_filt - (advance s raw).env_min >
              mkRat 50 100 * (advance s raw).p2p_ema)) = true
      · rw [if_pos g3]
        exact ⟨{ advance s raw with
            diff_prev := (advance s raw).lp - (advance s raw).prev_filt,
            prev_filt := (advance s raw).lp, prev_t_ms := t },
          by simp, by simp, by simp, rfl, rfl, rfl⟩
      · rw [if_neg g3] at hb; simp at hb

end PulseBpm

/-- Claim C1 (amended): for every beat accepted by `PulseBpm::update`
(result `Provisional` or `Stable`) from a state satisfying the ring
invariant, the returned bpm equals `60000` divided — with truncating
integer division, as the code does, not rounded to nearest — by the
truncated integer average of the last at most 5 accepted inter-beat
intervals, and every interval contributing to that average lies in
[333, 1500] ms. -/
theorem C1_bpm_truncating_division (s : PulseBpm) (raw t bpm0 : ℤ) (q0 : ℚ)
    (hInv : PulseBpm.Inv s)
    (hres : (PulseBpm.update s raw t bpm0 q0).result ≠ PulseBpm.Result.NONE) :
    (PulseBpm.update s raw t bpm0 q0).out_bpm
      = 60000 / PulseBpm.average_ibi (PulseBpm.update s raw t bpm0 q0).s' ∧
    PulseBpm.Inv (PulseBpm.update s raw t bpm0 q0).s' := by
  obtain ⟨s5, hbuf, hcnt, hlast5, hres_eq, hs_eq, hbpm_eq⟩ :=
    PulseBpm.update_beat_eq s raw t bpm0 q0
      (PulseBpm.update_result_ne_none_beat s raw t bpm0 q0 hres)
  rw [hres_eq] at hres
  rw [hbpm_eq, hs_eq]
  exact PulseBpm.register_beat_accept (PulseBpm.Inv_of_fields hbuf hcnt hInv) hres

set_option maxRecDepth 1000000 in
/-- Witness for C1: on the concrete six-sample run the sixth call
accepts a beat, from a state satisfying the ring invariant. -/
theorem C1_bpm_truncating_division_witness :
    PulseBpm.Inv PulseBpm.cexStateFive ∧
    PulseBpm.cexUpdSix.result ≠ PulseBpm.Result.NONE ∧
    (PulseBpm.cexUpdSix.out_bpm = 60000 / PulseBpm.average_ibi PulseBpm.cexUpdSix.s' ∧
     PulseBpm.Inv PulseBpm.cexUpdSix.s') :=
  ⟨by with_unfolding_all decide, by with_unfolding_all decide,
   C1_bpm_truncating_division PulseBpm.cexStateFive 1000 1900 0 0
     (by with_unfolding_all decide) (by with_unfolding_all decide)⟩

set_option maxRecDepth 1000000 in
/-- Counterexample to claim C1 as stated: on the concrete run the sixth
call accepts a beat with a single stored IBI of 900 ms; the code reports
`60000 / 900 = 66` (truncating), while
`round(60000 / average) = round(66.67) = 67`. -/
theorem C1_round_counterexample :
    PulseBpm.cexUpdSix.result = PulseBpm.Result.PROVISIONAL ∧
    PulseBpm.specBpmOf PulseBpm.cexUpdSix.s' = 67 ∧
    PulseBpm.cexUpdSix.out_bpm = 66 ∧
    PulseBpm.cexUpdSix.out_bpm ≠ PulseBpm.specBpmOf PulseBpm.cexUpdSix.s' := by
  refine ⟨?_, ?_, ?_, ?_⟩ <;> with_unfolding_all decide

/-- Claim C5: `PulseBpm::update` reports a candidate beat only when all
four gates hold at once — slope sign change from positive to
non-positive at the previous sample, at least 333 ms since the last
accepted beat, previous filtered value above the adaptive threshold
`max(22, 0.26 × smoothed amplitude, 6 × noise)`, and prominence above
`0.50 × smoothed amplitude`; if any gate fails, no beat is registered on
that call. -/
theorem C5_candidate_beat_gates (s : PulseBpm) (raw t bpm0 : ℤ) (q0 : ℚ)
    (hbeat : (PulseBpm.update s raw t bpm0 q0).beat = true) :
    PulseBpm.slopeGate s raw ∧ PulseBpm.refractoryGate s ∧
    PulseBpm.thresholdGate s raw ∧ PulseBpm.prominenceGate s raw := by
  simp only [PulseBpm.update] at hbeat
  by_cases g1 : (PulseBpm.advance s raw).env_inited = false ∨
      (PulseBpm.advance s raw).p2p_ema <
        clampf (max 18 (8 * (PulseBpm.advance s raw).noise_ema)) 18 80
  · rw [if_pos g1] at hbeat; simp at hbeat
  · rw [if_neg g1] at hbeat
    by_cases g2 : (PulseBpm.advance s raw).have_prev = false
    · rw [if_pos g2] at hbeat; simp at hbeat
    · rw [if_neg g2] at hbeat
      by_cases g3 :
          (decide ((if (PulseBpm.advance s raw).last_beat_ms = 0 then LLONG_MAX
              else (PulseBpm.advance s raw).prev_t_ms - (PulseBpm.advance s raw).last_beat_ms)
                ≥ PulseBpm.IBI_MIN_MS) &&
            decide ((PulseBpm.advance s raw).diff_prev > 0) &&
            decide ((PulseBpm.advance s raw).lp - (PulseBpm.advance s raw).prev_filt ≤ 0) &&
            decide ((PulseBpm.advance s raw).prev_filt >
              max 22 (max (mkRat 26 100 * (PulseBpm.advance s raw).p2p_ema)
                (6 * (PulseBpm.advance s raw).noise_ema))) &&
            decide ((PulseBpm.advance s raw).prev_filt - (PulseBpm.advance s raw).env_min >
              mkRat 50 100 * (PulseBpm.advance s raw).p2p_ema)) = true
      · simp only [Bool.and_eq_true, decide_eq_true_eq] at g3
        obtain ⟨⟨⟨⟨hrefr, hup⟩, hdown⟩, hthr⟩, hprom⟩ := g3
        refine ⟨⟨?_, ?_⟩, ?_, ?_, ?_⟩
        · simpa using hup
        · simpa using hdown
        · unfold PulseBpm.refractoryGate
          simpa using hrefr
        · unfold PulseBpm.thresholdGate
          simpa using hthr
        · unfold PulseBpm.prominenceGate
          simpa using hprom
      · rw [if_neg g3] at hbeat; simp at hbeat

set_option maxRecDepth 400000 in
/-- Witness for C5: on the handcrafted state the update call detects a
candidate beat, so all four gates hold. -/
theorem C5_candidate_beat_gates_witness :
    (PulseBpm.update PulseBpm.wBeatState 0 3000 0 0).beat = true ∧
    (PulseBpm.slopeGate PulseBpm.wBeatState 0 ∧ PulseBpm.refractoryGate PulseBpm.wBeatState ∧
     PulseBpm.thresholdGate PulseBpm.wBeatState 0 ∧
     PulseBpm.prominenceGate PulseBpm.wBeatState 0) :=
  ⟨by with_unfolding_all decide,
   C5_candidate_beat_gates PulseBpm.wBeatState 0 3000 0 0 (by with_unfolding_all decide)⟩

/-- Claim C6: when `PulseBpm` registers a candidate beat whose
inter-beat interval is outside [333, 1500] ms, or — once at least 3
intervals are on record — whose ratio to the median of the stored
intervals falls outside [0.85, 1.20], the beat is rejected: `update`
returns `NoBeat`, the interval ring and count are unchanged, but the
last-beat timestamp still advances to the new beat time, restarting the
refractory period. -/
theorem C6_reject_restarts_refractory (s : PulseBpm) (raw t bpm0 : ℤ) (q0 : ℚ)
    (hInv : PulseBpm.Inv s)
    (hlast : s.last_beat_ms ≠ 0)
    (hbeat : (PulseBpm.update s raw t bpm0 q0).beat = true)
    (hrej : t - s.last_beat_ms < PulseBpm.IBI_MIN_MS ∨
      t - s.last_beat_ms > PulseBpm.IBI_MAX_MS ∨
      (3 ≤ s.ibi_count ∧
        (((t - s.last_beat_ms : ℤ) : ℚ) / (PulseBpm.median_ibi s : ℚ) < mkRat 85 100 ∨
         ((t - s.last_beat_ms : ℤ) : ℚ) / (PulseBpm.median_ibi s : ℚ) > mkRat 120 100))) :
    (PulseBpm.update s raw t bpm0 q0).result = PulseBpm.Result.NONE ∧
    (PulseBpm.update s raw t bpm0 q0).s'.ibi_buf = s.ibi_buf ∧
    (PulseBpm.update s raw t bpm0 q0).s'.ibi_count = s.ibi_count ∧
    (PulseBpm.update s raw t bpm0 q0).s'.last_beat_ms = t := by
  obtain ⟨s5, hbuf, hcnt, hlast5, hres_eq, hs_eq, _⟩ :=
    PulseBpm.update_beat_eq s raw t bpm0 q0 hbeat
  have hmed : PulseBpm.median_ibi s5 = PulseBpm.median_ibi s :=
    PulseBpm.median_ibi_congr hbuf hcnt
  have hInv5 : PulseBpm.Inv s5 := PulseBpm.Inv_of_fields hbuf hcnt hInv
  have hlast5' : s5.last_beat_ms ≠ 0 := by rw [hlast5]; exact hlast
  have hrej5 : t - s5.last_beat_ms < PulseBpm.IBI_MIN_MS ∨
      t - s5.last_beat_ms > PulseBpm.IBI_MAX_MS ∨
      (3 ≤ s5.ibi_count ∧
        (((t - s5.last_beat_ms : ℤ) : ℚ) / (PulseBpm.median_ibi s5 : ℚ) < mkRat 85 100 ∨
         ((t - s5.last_beat_ms : ℤ) : ℚ) / (PulseBpm.median_ibi s5 : ℚ) > mkRat 120 100)) := by
    rw [hlast5, hmed, hcnt]
    exact hrej
  obtain ⟨hr1, hr2, hr3, hr4⟩ := @PulseBpm.register_beat_reject s5 t bpm0 hInv5 hlast5' hrej5
  refine ⟨?_, ?_, ?_, ?_⟩
  · rw [hres_eq]; exact hr1
  · rw [hs_eq, hr2, hbuf]
  · rw [hs_eq, hr3, hcnt]
  · rw [hs_eq]; exact hr4

set_option maxRecDepth 400000 in
/-- Witness for C6: on the handcrafted state the detected beat has
IBI = 2000 ms > 1500 ms, so it is rejected and only the last-beat
timestamp advances. -/
theorem C6_reject_restarts_refractory_witness :
    PulseBpm.Inv PulseBpm.wBeatState ∧
    PulseBpm.wBeatState.last_beat_ms ≠ 0 ∧
    (PulseBpm.update PulseBpm.wBeatState 0 3000 0 0).beat = true ∧
    (3000 : ℤ) - PulseBpm.wBeatState.last_beat_ms > PulseBpm.IBI_MAX_MS ∧
    ((PulseBpm.update PulseBpm.wBeatState 0 3000 0 0).result = PulseBpm.Result.NONE ∧
     (PulseBpm.update PulseBpm.wBeatState 0 3000 0 0).s'.ibi_buf = PulseBpm.wBeatState.ibi_buf ∧
     (PulseBpm.update PulseBpm.wBeatState 0 3000 0 0).s'.ibi_count = PulseBpm.wBeatState.ibi_count ∧
     (PulseBpm.update PulseBpm.wBeatState 0 3000 0 0).s'.last_beat_ms = 3000) :=
  ⟨by with_unfolding_all decide, by with_unfolding_all decide, by with_unfolding_all decide,
   by with_unfolding_all decide,
   C6_reject_restarts_refractory PulseBpm.wBeatState 0 3000 0 0
     (by with_unfolding_all decide) (by with_unfolding_all decide)
     (by with_unfolding_all decide)
     (Or.inr (Or.inl (by with_unfolding_all decide)))⟩

/-- Claim C7: after every `PulseBpm::update_envelope` call on an
initialized envelope, `envelope_min ≤ filtered value ≤ envelope_max`:
the envelope follows the signal instantaneously when the signal crosses
a bound and otherwise decays toward it at rate 0.01 without crossing. -/
theorem C7_envelope_invariant (s : PulseBpm) (x : ℚ)
    (h : s.env_inited = true) :
    (PulseBpm.update_envelope s x).env_min ≤ x ∧
    x ≤ (PulseBpm.update_envelope s x).env_max := by
  unfold PulseBpm.update_envelope
  rw [if_neg (by simp [h])]
  constructor
  · dsimp only
    split_ifs with h1
    · exact le_refl x
    · push_neg at h1
      have hc : (mkRat 1 100 : ℚ) = 1/100 := by
        rw [Rat.mkRat_eq_divInt, Rat.divInt_eq_div]; norm_num
      rw [hc]
      linarith
  · dsimp only
    split_ifs with h1
    · exact le_refl x
    · push_neg at h1
      have hc : (mkRat 1 100 : ℚ) = 1/100 := by
        rw [Rat.mkRat_eq_divInt, Rat.divInt_eq_div]; norm_num
      rw [hc]
      linarith

/-- Witness for C7: a concrete initialized envelope state. -/
theorem C7_envelope_invariant_witness :
    PulseBpm.wEnvState.env_inited = true ∧
    ((PulseBpm.update_envelope PulseBpm.wEnvState 5).env_min ≤ 5 ∧
     (5 : ℚ) ≤ (PulseBpm.update_envelope PulseBpm.wEnvState 5).env_max) :=
  ⟨rfl, C7_envelope_invariant PulseBpm.wEnvState 5 rfl⟩

/-- Claim C9: for every initial raw value, timestamp and raw sample,
`PulseBpm::reset` followed by exactly one `PulseBpm::update` call
returns `NoBeat` — a single sample can only arm timing. -/
theorem C9_first_update_after_reset_no_beat (initial_raw raw t bpm0 : ℤ) (q0 : ℚ) :
    (PulseBpm.update (PulseBpm.reset initial_raw) raw t bpm0 q0).result
      = PulseBpm.Result.NONE := by
  have hA : (PulseBpm.advance (PulseBpm.reset initial_raw) raw).p2p_ema = 0 := by
    simp [PulseBpm.advance, PulseBpm.reset, PulseBpm.update_envelope]
  have hN : (PulseBpm.advance (PulseBpm.reset initial_raw) raw).noise_ema = 0 := by
    simp [PulseBpm.advance, PulseBpm.reset, PulseBpm.update_envelope]
  have hcond : (PulseBpm.advance (PulseBpm.reset initial_raw) raw).env_inited = false ∨
      (PulseBpm.advance (PulseBpm.reset initial_raw) raw).p2p_ema <
        clampf (max 18 (8 * (PulseBpm.advance (PulseBpm.reset initial_raw) raw).noise_ema))
          18 80 := by
    right
    rw [hA, hN]
    norm_num [clampf]
  simp only [PulseBpm.update]
  rw [if_pos hcond]

/-- Claim C10: on every `PulseBpm::update` call the `out_quality`
out-parameter is assigned the clamped weighted quality score before any
early return, while `out_bpm` is written only when a beat is accepted:
whenever the call returns `NoBeat`, `out_bpm` still holds exactly the
value the caller passed in. -/
theorem C10_out_param_frame (s : PulseBpm) (raw t bpm0 : ℤ) (q0 : ℚ) :
    (PulseBpm.update s raw t bpm0 q0).out_quality = PulseBpm.qualityOf s raw ∧
    ((PulseBpm.update s raw t bpm0 q0).result = PulseBpm.Result.NONE →
      (PulseBpm.update s raw t bpm0 q0).out_bpm = bpm0) := by
  simp only [PulseBpm.update]
  split
  · exact ⟨rfl, fun _ => rfl⟩
  · split
    · exact ⟨rfl, fun _ => rfl⟩
    · split
      · split
        · exact ⟨rfl, fun h => PulseBpm.register_beat_none_bpm _ _ _ h⟩
        · exact ⟨rfl, fun _ => rfl⟩
      · split
        · exact ⟨rfl, fun h => PulseBpm.register_beat_none_bpm _ _ _ h⟩
        · exact ⟨rfl, fun _ => rfl⟩

set_option maxRecDepth 400000 in
/-- Witness for C10: a first call after reset returns `NoBeat` and hands
back the caller's `out_bpm` value 42 unchanged. -/
theorem C10_out_param_frame_witness :
    (PulseBpm.update (PulseBpm.reset 5) 7 0 42 9).result = PulseBpm.Result.NONE ∧
    (PulseBpm.update (PulseBpm.reset 5) 7 0 42 9).out_bpm = 42 :=
  ⟨by with_unfolding_all decide,
   (C10_out_param_frame (PulseBpm.reset 5) 7 0 42 9).2 (by with_unfolding_all decide)⟩

namespace HrAnomalyDetector

/-- The `detect_rapid_change` loop body, re-expressed as the spec words
it implements: keep scanning while entries are within the window (the
first entry beyond it stops the scan), and report a rapid change if any
scanned entry that is strictly older than the newest differs from it by
at least the delta. -/
lemma rapidScan_eq_takeWhile (cfg : Config) (newest : ℤ × ℤ) (l : List (ℤ × ℤ))
    (hw : 0 ≤ cfg.rapid_change_window_ms) :
    rapidScan cfg newest l =
      ((l.takeWhile fun old => decide (newest.2 - old.2 ≤ cfg.rapid_change_window_ms)).any
        fun old => decide (0 < newest.2 - old.2) &&
          decide (cfg.rapid_change_delta_bpm ≤ |newest.1 - old.1|)) := by
  induction l with
  | nil => rfl
  | cons a rest ih =>
    by_cases h1 : newest.2 - a.2 ≤ 0
    · have e1 : (decide (newest.2 - a.2 ≤ cfg.rapid_change_window_ms)) = true :=
        decide_eq_true (le_trans h1 hw)
      have e2 : (decide (0 < newest.2 - a.2)) = false :=
        decide_eq_false (not_lt.mpr h1)
      simp only [rapidScan, if_pos h1,
        @List.takeWhile_cons_of_pos _
          (fun old => decide (newest.2 - old.2 ≤ cfg.rapid_change_window_ms)) a rest e1,
        List.any_cons, e2, Bool.false_and, Bool.false_or]
      exact ih
    · by_cases h2 : newest.2 - a.2 > cfg.rapid_change_window_ms
      · have e1 : (decide (newest.2 - a.2 ≤ cfg.rapid_change_window_ms)) = false :=
          decide_eq_false (not_le.mpr h2)
        simp only [rapidScan, if_neg h1, if_pos h2,
          @List.takeWhile_cons_of_neg _
            (fun old => decide (newest.2 - old.2 ≤ cfg.rapid_change_window_ms)) a rest
            (by simp; omega),
          List.any_nil]
      · have e1 : (decide (newest.2 - a.2 ≤ cfg.rapid_change_window_ms)) = true :=
          decide_eq_true (not_lt.mp h2)
        have e2 : (decide (0 < newest.2 - a.2)) = true :=
          decide_eq_true (lt_of_not_ge h1)
        by_cases h3 : cfg.rapid_change_delta_bpm ≤ |newest.1 - a.1|
        · have e3 : (decide (cfg.rapid_change_delta_bpm ≤ |newest.1 - a.1|)) = true :=
            decide_eq_true h3
          simp only [rapidScan, if_neg h1, if_neg h2, if_pos h3,
            @List.takeWhile_cons_of_pos _
              (fun old => decide (newest.2 - old.2 ≤ cfg.rapid_change_window_ms)) a rest e1,
            List.any_cons, e2, e3, Bool.true_and, Bool.true_or]
        · have e3 : (decide (cfg.rapid_change_delta_bpm ≤ |newest.1 - a.1|)) = false :=
            decide_eq_false h3
          simp only [rapidScan, if_neg h1, if_neg h2, if_neg h3,
            @List.takeWhile_cons_of_pos _
              (fun old => decide (newest.2 - old.2 ≤ cfg.rapid_change_window_ms)) a rest e1,
            List.any_cons, e3, Bool.and_false, Bool.false_or]
          exact ih

/-- For a non-negative window, `detect_rapid_change` coincides with the
spec-worded scan `specRapidScan`. -/
lemma detect_eq_specRapidScan (cfg : Config) (s : HrAnomalyDetector)
    (hw : 0 ≤ cfg.rapid_change_window_ms) :
    detect_rapid_change cfg s = specRapidScan cfg s := by
  unfold detect_rapid_change specRapidScan
  split
  case isTrue h =>
    have holder : olderEntries s = [] := by
      unfold olderEntries
      have : s.hist_count - 1 = 0 := by omega
      simp [this]
    simp [holder]
  case isFalse h =>
    exact rapidScan_eq_takeWhile cfg _ _ hw

end HrAnomalyDetector

namespace HrAnomalyDetector

@[simp] lemma pushedState_active_alarm (cfg : Config) (s : HrAnomalyDetector) (r : BpmReading) :
    (pushedState cfg s r).active_alarm = s.active_alarm := rfl

@[simp] lemma pushedState_clear_since (cfg : Config) (s : HrAnomalyDetector) (r : BpmReading) :
    (pushedState cfg s r).clear_since = s.clear_since := rfl

@[simp] lemma pushedState_abnormal_since (cfg : Config) (s : HrAnomalyDetector) (r : BpmReading) :
    (pushedState cfg s r).abnormal_since = s.abnormal_since := rfl

@[simp] lemma pushedState_abnormal_kind (cfg : Config) (s : HrAnomalyDetector) (r : BpmReading) :
    (pushedState cfg s r).abnormal_kind = s.abnormal_kind := rfl

end HrAnomalyDetector

/-- Claim C2: `HrAnomalyDetector::update` returns an `AlarmEvent` if and
only if the candidate alarm kind computed on that tick (after clear
hysteresis) differs from the stored active alarm kind; while they agree
nothing is returned, so an event is never repeated while a state
persists. -/
theorem C2_event_iff_candidate_differs (cfg : HrAnomalyDetector.Config)
    (s : HrAnomalyDetector) (r : BpmReading) :
    (HrAnomalyDetector.update cfg s r).event ≠ none ↔
      HrAnomalyDetector.candidateAfterHysteresis cfg s r ≠ s.active_alarm := by
  simp only [HrAnomalyDetector.update]
  split
  case isTrue h => exact iff_of_true (by simp) (by simpa using h)
  case isFalse h => exact iff_of_false (by simp) (by simpa using h)

/-- Claim C3: with an alarm active and this tick's candidate `None`
(`onset` below is the start of the continuous `None` window recorded in
`clear_since`, or this tick when none is pending): while the `None`
candidate has persisted for less than 3000 ms the active alarm is held
and no event is emitted; once it has persisted 3000 ms or more, the
alarm clears and a `None` event is emitted. -/
theorem C3_clear_hysteresis (s : HrAnomalyDetector) (r : BpmReading)
    (h1 : s.active_alarm ≠ AlarmType.NONE)
    (h2 : HrAnomalyDetector.preCandidate HrAnomalyDetector.default_config s r
      = AlarmType.NONE) :
    ((r.t_ms - (if s.clear_since = 0 then r.t_ms else s.clear_since) < 3000) →
      (HrAnomalyDetector.update HrAnomalyDetector.default_config s r).event = none ∧
      (HrAnomalyDetector.update HrAnomalyDetector.default_config s r).s'.active_alarm
        = s.active_alarm) ∧
    ((r.t_ms - (if s.clear_since = 0 then r.t_ms else s.clear_since) ≥ 3000) →
      (HrAnomalyDetector.update HrAnomalyDetector.default_config s r).event =
        some ⟨AlarmType.NONE, r.bpm, r.quality, r.t_ms⟩ ∧
      (HrAnomalyDetector.update HrAnomalyDetector.default_config s r).s'.active_alarm
        = AlarmType.NONE) := by
  constructor
  · intro hlt
    have hc : HrAnomalyDetector.candidateAfterHysteresis HrAnomalyDetector.default_config s r
        = s.active_alarm := by
      unfold HrAnomalyDetector.candidateAfterHysteresis
      rw [if_pos ⟨h1, h2⟩,
        show HrAnomalyDetector.default_config.clear_ms = (3000 : ℤ) from rfl, if_pos hlt]
    simp only [HrAnomalyDetector.update]
    rw [if_neg (by simp [hc])]
    exact ⟨rfl, by simp⟩
  · intro hge
    have hc : HrAnomalyDetector.candidateAfterHysteresis HrAnomalyDetector.default_config s r
        = AlarmType.NONE := by
      unfold HrAnomalyDetector.candidateAfterHysteresis
      rw [if_pos ⟨h1, h2⟩,
        show HrAnomalyDetector.default_config.clear_ms = (3000 : ℤ) from rfl,
        if_neg (not_lt.mpr hge)]
    simp only [HrAnomalyDetector.update]
    rw [if_pos (by simpa [hc] using Ne.symm h1)]
    exact ⟨by simp [hc], by simp [hc]⟩

/-- Witness for C3: a tachycardia alarm is active, the tick's candidate
is `None`, and the `None` window started 1000 ms ago, so the alarm is
held. -/
theorem C3_clear_hysteresis_witness :
    HrAnomalyDetector.wClearState.active_alarm ≠ AlarmType.NONE ∧
    HrAnomalyDetector.preCandidate HrAnomalyDetector.default_config
      HrAnomalyDetector.wClearState HrAnomalyDetector.wClearReading = AlarmType.NONE ∧
    ((HrAnomalyDetector.wClearReading.t_ms -
        (if HrAnomalyDetector.wClearState.clear_since = 0 then
          HrAnomalyDetector.wClearReading.t_ms
        else HrAnomalyDetector.wClearState.clear_since) < 3000) ∧
     (HrAnomalyDetector.update HrAnomalyDetector.default_config
        HrAnomalyDetector.wClearState HrAnomalyDetector.wClearReading).event = none ∧
     (HrAnomalyDetector.update HrAnomalyDetector.default_config
        HrAnomalyDetector.wClearState HrAnomalyDetector.wClearReading).s'.active_alarm
       = HrAnomalyDetector.wClearState.active_alarm) :=
  ⟨by decide, by decide,
   by decide,
   (C3_clear_hysteresis HrAnomalyDetector.wClearState HrAnomalyDetector.wClearReading
      (by decide) (by decide)).1 (by decide)⟩

/-- Claim C4: when readings have been low-quality (or non-positive bpm)
continuously since a pending no-signal onset at least 3000 ms old, the
candidate becomes `NoSignal` unconditionally — overriding
bradycardia/tachycardia/rapid-change classification — and any event
emitted on such a tick is a `NoSignal` event; in particular no
`Tachycardia` event can be produced, whatever the bpm value is. -/
theorem C4_no_signal_overrides (s : HrAnomalyDetector) (r : BpmReading)
    (hlow : r.quality < mkRat 1 4 ∨ r.bpm ≤ 0)
    (hpend : s.no_signal_since ≠ 0)
    (hdur : r.t_ms - s.no_signal_since ≥ 3000) :
    HrAnomalyDetector.preCandidate HrAnomalyDetector.default_config s r
      = AlarmType.NO_SIGNAL ∧
    ∀ ev, (HrAnomalyDetector.update HrAnomalyDetector.default_config s r).event = some ev →
      ev.type = AlarmType.NO_SIGNAL := by
  have htrack : HrAnomalyDetector.trackNoSignal HrAnomalyDetector.default_config s r
      = s.no_signal_since := by
    unfold HrAnomalyDetector.trackNoSignal
    rw [show HrAnomalyDetector.default_config.min_quality_for_bpm = mkRat 1 4 from rfl,
      if_pos hlow, if_neg hpend]
  have hnss : (HrAnomalyDetector.pushedState HrAnomalyDetector.default_config s r).no_signal_since
      = s.no_signal_since := htrack
  have hcand : HrAnomalyDetector.preCandidate HrAnomalyDetector.default_config s r
      = AlarmType.NO_SIGNAL := by
    unfold HrAnomalyDetector.preCandidate HrAnomalyDetector.computeCandidate
    rw [if_pos ⟨by rw [hnss]; exact hpend, by rw [hnss]; exact hdur⟩]
  refine ⟨hcand, ?_⟩
  intro ev hev
  have hc2 : HrAnomalyDetector.candidateAfterHysteresis HrAnomalyDetector.default_config s r
      = AlarmType.NO_SIGNAL := by
    unfold HrAnomalyDetector.candidateAfterHysteresis
    rw [if_neg (by simp [hcand])]
    exact hcand
  simp only [HrAnomalyDetector.update] at hev
  split at hev
  · rw [hc2] at hev
    injection hev with h3
    rw [← h3]
  · simp at hev

/-- Witness for C4: a low-quality, would-be tachycardic reading at
t = 3100 with a no-signal window pending since t = 100 produces a
`NoSignal` candidate and only a `NoSignal` event. -/
theorem C4_no_signal_overrides_witness :
    (HrAnomalyDetector.wNoSigReading.quality < mkRat 1 4 ∨
      HrAnomalyDetector.wNoSigReading.bpm ≤ 0) ∧
    HrAnomalyDetector.wNoSigState.no_signal_since ≠ 0 ∧
    HrAnomalyDetector.wNoSigReading.t_ms - HrAnomalyDetector.wNoSigState.no_signal_since ≥ 3000 ∧
    HrAnomalyDetector.preCandidate HrAnomalyDetector.default_config
      HrAnomalyDetector.wNoSigState HrAnomalyDetector.wNoSigReading = AlarmType.NO_SIGNAL :=
  ⟨by decide, by decide, by decide,
   (C4_no_signal_overrides HrAnomalyDetector.wNoSigState HrAnomalyDetector.wNoSigReading
      (by decide) (by decide) (by decide)).1⟩

/-- Claim C8: on an update tick with a usable reading (quality at least
0.25 and stable), no triggered no-signal condition, and no sustained
bradycardia/tachycardia candidate, the per-tick candidate is decided by
scanning the 8-slot history ring from the newest entry backward: it is
`RapidChange` exactly when some strictly older entry within 5000 ms of
the newest differs from it by at least 35 bpm, the scan stopping at the
first entry outside the 5000 ms window (`specRapidScan` states this scan
in the spec's words). -/
theorem C8_rapid_change_window_scan (s : HrAnomalyDetector) (r : BpmReading)
    (hq : r.quality ≥ mkRat 1 4)
    (hs : r.stable = true)
    (hnosig : ¬((HrAnomalyDetector.pushedState HrAnomalyDetector.default_config s r).no_signal_since ≠ 0 ∧
      r.t_ms - (HrAnomalyDetector.pushedState HrAnomalyDetector.default_config s r).no_signal_since ≥ 3000))
    (hsust : (HrAnomalyDetector.sustainedStep HrAnomalyDetector.default_config
      (HrAnomalyDetector.pushedState HrAnomalyDetector.default_config s r) r).cand
        = AlarmType.NONE) :
    HrAnomalyDetector.preCandidate HrAnomalyDetector.default_config s r =
      (if HrAnomalyDetector.specRapidScan HrAnomalyDetector.default_config
          (HrAnomalyDetector.pushedState HrAnomalyDetector.default_config s r)
       then AlarmType.RAPID_CHANGE else AlarmType.NONE) := by
  unfold HrAnomalyDetector.preCandidate HrAnomalyDetector.computeCandidate
  rw [if_neg (by
    rw [show HrAnomalyDetector.default_config.no_signal_ms = (3000 : ℤ) from rfl]
    exact hnosig)]
  rw [if_pos ⟨by
    rw [show HrAnomalyDetector.default_config.min_quality_for_bpm = mkRat 1 4 from rfl]
    exact hq, hs⟩]
  rw [if_pos hsust]
  rw [HrAnomalyDetector.detect_eq_specRapidScan HrAnomalyDetector.default_config _
    (by rw [show HrAnomalyDetector.default_config.rapid_change_window_ms = (5000 : ℤ) from rfl]
        norm_num)]

set_option maxRecDepth 100000 in
/-- Witness for C8, reproducing spec Scenario E: usable bpm = 70 at
t = 0 then bpm = 110 at t = 2000 make the scan fire, the candidate
becomes `RapidChange`, and a `RapidChange` event is emitted at
t = 2000. -/
theorem C8_rapid_change_window_scan_witness :
    HrAnomalyDetector.sE_r2.quality ≥ mkRat 1 4 ∧
    HrAnomalyDetector.sE_r2.stable = true ∧
    HrAnomalyDetector.preCandidate HrAnomalyDetector.default_config
      HrAnomalyDetector.sE_state1 HrAnomalyDetector.sE_r2 = AlarmType.RAPID_CHANGE ∧
    (HrAnomalyDetector.update HrAnomalyDetector.default_config
      HrAnomalyDetector.sE_state1 HrAnomalyDetector.sE_r2).event =
        some ⟨AlarmType.RAPID_CHANGE, 110, 1, 2000⟩ := by
  refine ⟨by decide, by decide, ?_, by with_unfolding_all decide⟩
  have h := C8_rapid_change_window_scan HrAnomalyDetector.sE_state1 HrAnomalyDetector.sE_r2
    (by decide) (by decide) (by decide) (by decide)
  rw [h]
  with_unfolding_all decide
